import Mathlib

/-!
Shallow embedding of `src/tree-diff.c`: the sorted merge-join over two
decoded tree entry sequences (`ll_diff_tree_sha1` and its helper
`show_path`), the entry comparator (`tree_entry_pathcmp`), the filter
pruning step (`skip_uninteresting`), and the rename-follow post-pass
(`try_to_follow_renames` / `diff_tree_sha1`).

External collaborators that are not part of this source unit — the
object-store decoder (`fill_tree_descriptor`), the pathspec matcher
(`tree_entry_interesting`), the byte-wise name comparator
(`base_name_compare`), the early-quit predicate (`diff_can_quit_early`),
the filepair queueing callbacks of diff.c and the similarity scorer
(`diffcore_std`) — are modelled from the spec, either as explicit
function parameters bundled in `Externals` or as definitions whose doc
comment starts with `Modelled from the spec:`.

The C code's recursion into subtrees is made total with an explicit fuel
parameter that strictly decreases on every nested call: `none` means the
fuel budget ran out, `some r` is the exact result the C code computes.
Mutable state (the shared `strbuf` path buffer, the accumulated event
stream of the output callbacks, the options struct updated by the follow
pass) is threaded explicitly as values.
-/

namespace TreeDiff

/-- Content hashes (sha1 of a tree object) are abstract identifiers; the
`NULL` tree pointer of the C code is modelled as `Option.none` at the
use sites. -/
abbrev Hash := Nat

/-- One decoded tree entry, `struct name_entry`: name bytes, mode bits,
and the sha1 of the entry's object. -/
structure name_entry where
  path : List Nat
  mode : Nat
  sha1 : Hash
  deriving DecidableEq

/-- Modelled from the spec: `S_ISDIR`, the mode test for the subtree
(directory) type, `(mode & S_IFMT) == S_IFDIR` with `S_IFMT = 0xF000`
and `S_IFDIR = 0x4000`. -/
def S_ISDIR (m : Nat) : Bool := m &&& 61440 == 16384

/-- Modelled from the spec: the `memcmp` step of `base_name_compare` —
sign of the first difference within the first `n` bytes. -/
def memcmpN : List Nat → List Nat → Nat → Int
  | _, _, 0 => 0
  | b1 :: s1, b2 :: s2, n + 1 =>
    if b1 < b2 then -1 else if b2 < b1 then 1 else memcmpN s1 s2 n
  | _, _, _ => 0

/-- Modelled from the spec: `base_name_compare` (declared in cache.h, not
part of this source unit).  Ordering rule of spec §3: entries compare by
name bytes, but the entry type is folded into the comparison by reading
the virtual byte just past the shorter name as `'/'` for a directory and
as the NUL terminator `0` for a non-directory, so a file and a directory
with the same name never compare equal. -/
def base_name_compare (name1 : List Nat) (mode1 : Nat)
    (name2 : List Nat) (mode2 : Nat) : Int :=
  let len := min name1.length name2.length
  let cmp := memcmpN name1 name2 len
  if cmp ≠ 0 then cmp
  else
    let c1 := name1.getD len 0
    let c2 := name2.getD len 0
    let c1 := if c1 = 0 ∧ S_ISDIR mode1 then 47 else c1
    let c2 := if c2 = 0 ∧ S_ISDIR mode2 then 47 else c2
    if c1 < c2 then -1 else if c2 < c1 then 1 else 0

/-- `tree_entry_pathcmp` (tree-diff.c:26-42): compare the current entries
of two tree descriptors; an exhausted descriptor sorts after every valid
entry (`+infinity`), two exhausted descriptors compare equal. -/
def tree_entry_pathcmp (t1 t2 : List name_entry) : Int :=
  match t1, t2 with
  | [], [] => 0
  | [], _ :: _ => 1
  | _ :: _, [] => -1
  | e1 :: _, e2 :: _ => base_name_compare e1.path e1.mode e2.path e2.mode

/-- One output event of the engine: `opt->change(...)` or
`opt->add_remove(...)` (tree-diff.c:46-73).  The sign of an add/remove
event is the byte passed by `emit_diff`: 43 = `'+'`, 45 = `'-'`. -/
inductive Event where
  | change (old_mode new_mode : Nat) (old_sha new_sha : Hash) (path : List Nat)
  | addremove (sign : Nat) (mode : Nat) (sha : Hash) (path : List Nat)
  deriving DecidableEq

/-- The `enum interesting` result of the external pathspec matcher
(`tree_entry_interesting`), as consumed by `skip_uninteresting`. -/
inductive interest_result where
  | all_entries_not_interesting
  | entry_not_interesting
  | entry_interesting
  | all_entries_interesting
  deriving DecidableEq

/-- Modelled from the spec: one item of a compiled pathspec — the match
string and its per-item magic bits. -/
structure pathspec_item where
  match_ : List Nat
  magic : Nat
  deriving DecidableEq

/-- Modelled from the spec: the compiled pathspec of `struct pathspec`
(pathspec.h, not part of this source unit): number of items, the union
of all items' magic bits, the wildcard hint, the `recursive` flag set by
`ll_diff_tree_sha1`, and the items. -/
structure pathspec where
  nr : Nat
  magic : Nat
  has_wildcard : Bool
  recursive : Bool
  items : List pathspec_item
  deriving DecidableEq

/-- The slice of `struct diff_options` this core reads and writes:
the option bits tested via `DIFF_OPT_TST` (RECURSIVE, TREE_IN_RECURSIVE,
FIND_COPIES_HARDER, FOLLOW_RENAMES), the pathspec, the thresholds and
fields copied by `try_to_follow_renames`, and the `found_follow` result
flag. -/
structure diff_options where
  recursive : Bool
  tree_in_recursive : Bool
  find_copies_harder : Bool
  follow_renames : Bool
  pathspec : pathspec
  break_opt : Int
  rename_score : Nat
  single_follow : Option (List Nat)
  output_format : Nat
  found_follow : Bool
  deriving DecidableEq

/-- Modelled from the spec: one side of a filepair
(`struct diff_filespec`); a side with `mode = 0` is the absent/invalid
side (`DIFF_FILE_VALID` is false). -/
structure diff_filespec where
  path : List Nat
  mode : Nat
  sha1 : Hash
  deriving DecidableEq

/-- Modelled from the spec: `struct diff_filepair` — old side, new side,
and the status tag assigned by the similarity scorer
(0 before scoring, 82 = `'R'` renamed, 67 = `'C'` copied, ...). -/
structure diff_filepair where
  one : diff_filespec
  two : diff_filespec
  status : Nat
  deriving DecidableEq

/-- Modelled from the spec: the external collaborators of §6, bundled as
explicit function parameters: the object-store decoder, the pathspec
matcher, the similarity scorer (`diffcore_std`), and the early-quit
predicate (`diff_can_quit_early`, a function of the options and of the
events emitted so far). -/
structure Externals where
  store : Hash → List name_entry
  tree_entry_interesting : name_entry → List Nat → pathspec → interest_result
  diffcore_std : List diff_filepair → diff_options → List diff_filepair
  can_quit_early : diff_options → List Event → Bool

/-- Modelled from the spec: `fill_tree_descriptor` — decode a tree hash
into its ordered entry sequence; a `NULL` hash decodes to the empty
tree. -/
def fill_tree_descriptor (store : Hash → List name_entry) :
    Option Hash → List name_entry
  | none => []
  | some h => store h

/-- `emit_diff` (tree-diff.c:46-73): turn one comparison outcome into a
single event.  Both modes non-zero → a change (modify) event carrying
both sides; otherwise an add (`'+'`, new side valid) or remove (`'-'`)
event carrying the valid side. -/
def emit_diff (path : List Nat) (t1 t2 : Option name_entry) : Event :=
  let mode1 := match t1 with | some e => e.mode | none => 0
  let mode2 := match t2 with | some e => e.mode | none => 0
  let sha1v := match t1 with | some e => e.sha1 | none => 0
  let sha2v := match t2 with | some e => e.sha1 | none => 0
  if mode1 ≠ 0 ∧ mode2 ≠ 0 then
    Event.change mode1 mode2 sha1v sha2v path
  else if mode2 ≠ 0 then
    Event.addremove 43 mode2 sha2v path
  else
    Event.addremove 45 mode1 sha1v path

/-- `skip_uninteresting` (tree-diff.c:132-146): advance the cursor until
the matcher reports an interesting entry; `all_entries_not_interesting`
empties the cursor at once (`t->size = 0`), any other non-zero answer
keeps the cursor positioned at the current entry. -/
def skip_uninteresting (ext : Externals) (base : List Nat)
    (opt : diff_options) : List name_entry → List name_entry
  | [] => []
  | e :: rest =>
    match ext.tree_entry_interesting e base opt.pathspec with
    | interest_result.entry_not_interesting =>
      skip_uninteresting ext base opt rest
    | interest_result.all_entries_not_interesting => []
    | _ => e :: rest

/-- The per-iteration pruning of one cursor (tree-diff.c:165-168): the
`skip_uninteresting` call guarded by `opt->pathspec.nr`. -/
def interesting_cursor (ext : Externals) (base : List Nat)
    (opt : diff_options) (t : List name_entry) : List name_entry :=
  if opt.pathspec.nr ≠ 0 then skip_uninteresting ext base opt t else t

/-- `strbuf_setlen`: truncate the path buffer back to a previous
length. -/
def strbuf_setlen (b : List Nat) (n : Nat) : List Nat := b.take n

mutual

/-- `ll_diff_tree_sha1` (tree-diff.c:148-201): decode both hashes, set
`opt->pathspec.recursive` from the RECURSIVE bit, run the merge-join
loop, and return status 0 with the events emitted and the final state of
the shared path buffer. -/
def ll_diff_tree_sha1 (ext : Externals) (fuel : Nat) (old new : Option Hash)
    (base : List Nat) (opt : diff_options) (acc : List Event) :
    Option (Int × List Event × List Nat) :=
  match fuel with
  | 0 => none
  | f + 1 =>
    let t1 := fill_tree_descriptor ext.store old
    let t2 := fill_tree_descriptor ext.store new
    let opt := { opt with
                 pathspec := { opt.pathspec with recursive := opt.recursive } }
    match diff_loop ext f t1 t2 base opt acc with
    | none => none
    | some (acc, base) => some (0, acc, base)

/-- The `for (;;)` merge-join loop of `ll_diff_tree_sha1`
(tree-diff.c:160-196): poll the early-quit predicate, prune both cursors
against the pathspec, stop when both are exhausted, otherwise compare
and dispatch on the sign.  The `| _, _ => none` / `| [] => none` arms
are unreachable: a comparison of 0 forces both cursors valid (or both
empty, handled before), a negative one forces the old cursor valid, a
positive one the new cursor. -/
def diff_loop (ext : Externals) (fuel : Nat) (t1 t2 : List name_entry)
    (base : List Nat) (opt : diff_options) (acc : List Event) :
    Option (List Event × List Nat) :=
  match fuel with
  | 0 => none
  | f + 1 =>
    if ext.can_quit_early opt acc then some (acc, base)
    else
      let t1 := interesting_cursor ext base opt t1
      let t2 := interesting_cursor ext base opt t2
      if t1.isEmpty && t2.isEmpty then some (acc, base)
      else
        let cmp := tree_entry_pathcmp t1 t2
        if cmp = 0 then
          match t1, t2 with
          | e1 :: r1, e2 :: r2 =>
            if opt.find_copies_harder ∨ e1.sha1 ≠ e2.sha1 ∨
                e1.mode ≠ e2.mode then
              match show_path ext f base opt (some e1) (some e2) acc with
              | none => none
              | some (acc, base) => diff_loop ext f r1 r2 base opt acc
            else
              diff_loop ext f r1 r2 base opt acc
          | _, _ => none
        else if cmp < 0 then
          match t1 with
          | e1 :: r1 =>
            match show_path ext f base opt (some e1) none acc with
            | none => none
            | some (acc, base) => diff_loop ext f r1 t2 base opt acc
          | [] => none
        else
          match t2 with
          | e2 :: r2 =>
            match show_path ext f base opt none (some e2) acc with
            | none => none
            | some (acc, base) => diff_loop ext f t1 r2 base opt acc
          | [] => none

/-- `show_path` (tree-diff.c:84-130): take name and directory bit from
the new side when present, else from the old side; under RECURSIVE a
directory recurses (and is itself emitted only under TREE_IN_RECURSIVE);
append the name to the path buffer, emit, optionally append `'/'` (47)
and recurse with each side's subtree hash (an absent side recurses as
the empty tree), and finally truncate the buffer back to its length on
entry. -/
def show_path (ext : Externals) (fuel : Nat) (base : List Nat)
    (opt : diff_options) (t1 t2 : Option name_entry) (acc : List Event) :
    Option (List Event × List Nat) :=
  match fuel with
  | 0 => none
  | f + 1 =>
    let old_baselen := base.length
    let pe :=
      match t2 with
      | some e2 => (e2.path, S_ISDIR e2.mode)
      | none =>
        match t1 with
        | some e1 => (e1.path, S_ISDIR e1.mode)
        | none => (([] : List Nat), false)
    let recurse := opt.recursive && pe.2
    let emitthis := if recurse then opt.tree_in_recursive else true
    let base := base ++ pe.1
    let acc := if emitthis then acc ++ [emit_diff base t1 t2] else acc
    if recurse then
      match ll_diff_tree_sha1 ext f (t1.map fun e => e.sha1)
          (t2.map fun e => e.sha1) (base ++ [47]) opt acc with
      | none => none
      | some (_, acc, base) => some (acc, strbuf_setlen base old_baselen)
    else
      some (acc, strbuf_setlen base old_baselen)

end

/-- Modelled from the spec: `DIFF_FILE_VALID` (diffcore.h) — a filepair
side is valid iff its mode is non-zero; an absent side has mode 0. -/
def DIFF_FILE_VALID (s : diff_filespec) : Bool := s.mode != 0

/-- A zeroed filepair, standing for the uninitialized storage behind an
out-of-contract `q->queue[0]` access. -/
def default_filepair : diff_filepair := ⟨⟨[], 0, 0⟩, ⟨[], 0, 0⟩, 0⟩

/-- Modelled from the spec: the queueing output callbacks of diff.c
(`diff_change` / `diff_addremove`) — each emitted event appends one
filepair to `diff_queued_diff`; the absent side of an add/remove pair
has mode 0 and a null sha; the status tag is unset (0) until the
similarity scorer runs. -/
def event_to_filepair : Event → diff_filepair
  | Event.change m1 m2 s1 s2 p => ⟨⟨p, m1, s1⟩, ⟨p, m2, s2⟩, 0⟩
  | Event.addremove sign m s p =>
    if sign = 43 then ⟨⟨p, 0, 0⟩, ⟨p, m, s⟩, 0⟩
    else ⟨⟨p, m, s⟩, ⟨p, 0, 0⟩, 0⟩

/-- `diff_might_be_rename` (tree-diff.c:208-212): the completed queue
holds exactly one filepair and its old side is not a valid file. -/
def diff_might_be_rename (q : List diff_filepair) : Bool :=
  q.length == 1 && !DIFF_FILE_VALID (q.headD default_filepair).one

/-- Modelled from the spec: pathspec magic bit `PATHSPEC_FROMTOP`. -/
def PATHSPEC_FROMTOP : Nat := 1

/-- Modelled from the spec: pathspec magic bit `PATHSPEC_MAXDEPTH`. -/
def PATHSPEC_MAXDEPTH : Nat := 2

/-- Modelled from the spec: pathspec magic bit `PATHSPEC_LITERAL`. -/
def PATHSPEC_LITERAL : Nat := 4

/-- Modelled from the spec: pathspec magic bit `PATHSPEC_GLOB`
(wildcard matching magic). -/
def PATHSPEC_GLOB : Nat := 8

/-- Modelled from the spec: pathspec magic bit `PATHSPEC_ICASE`. -/
def PATHSPEC_ICASE : Nat := 16

/-- Modelled from the spec: pathspec magic bit `PATHSPEC_EXCLUDE`. -/
def PATHSPEC_EXCLUDE : Nat := 32

/-- Modelled from the spec: the `GUARD_PATHSPEC` contract check
(pathspec.h) — it passes iff the pathspec's magic bits are all within
the allowed mask (`magic & ~mask == 0`); otherwise the program dies
with a BUG assertion. -/
def guard_pathspec (ps : pathspec) (mask : Nat) : Bool :=
  ps.magic &&& mask == ps.magic

/-- Modelled from the spec: `DIFF_FORMAT_NO_OUTPUT` (diff.h) — the
output format that suppresses all printing, used by the secondary
rename-follow pass which only collects the queue. -/
def DIFF_FORMAT_NO_OUTPUT : Nat := 2048

/-- Modelled from the spec: `diff_setup` (diff.c) — a zero-initialized
`diff_options` (thresholds at their unset defaults, empty pathspec, no
flags). -/
def diff_setup : diff_options :=
  { recursive := false
    tree_in_recursive := false
    find_copies_harder := false
    follow_renames := false
    pathspec := ⟨0, 0, false, false, []⟩
    break_opt := -1
    rename_score := 0
    single_follow := none
    output_format := 0
    found_follow := false }

/-- The single follow target, `opt->pathspec.items[0].match`
(tree-diff.c:248,267). -/
def pathspec_target (ps : pathspec) : List Nat :=
  match ps.items with
  | it :: _ => it.match_
  | [] => []

/-- Modelled from the spec: the pathspec built by `parse_pathspec` at
tree-diff.c:277-280 — exactly one literal path, no magic. -/
def single_literal_pathspec (path : List Nat) : pathspec :=
  ⟨1, 0, false, false, [⟨path, 0⟩]⟩

/-- The options of the secondary rename-follow pass
(tree-diff.c:244-251): `diff_setup` defaults with RECURSIVE and
FIND_COPIES_HARDER forced on, output suppressed, the single-follow
target, and the caller's break/rename thresholds. -/
def follow_diff_opts (opt : diff_options) (target : List Nat) :
    diff_options :=
  { diff_setup with
    recursive := true
    find_copies_harder := true
    output_format := DIFF_FORMAT_NO_OUTPUT
    single_follow := some target
    break_opt := opt.break_opt
    rename_score := opt.rename_score }

/-- Result of an entry point that can abort: `ok` is the value computed
by the C code, `die` is a non-recoverable contract-violation abort
(`die("BUG:...")` inside `GUARD_PATHSPEC`), `noFuel` means the explicit
recursion budget of the model ran out. -/
inductive Outcome (α : Type) where
  | ok (val : α)
  | die
  | noFuel
  deriving DecidableEq

/-- `try_to_follow_renames` (tree-diff.c:214-309): guard that the
pathspec uses no magic beyond FROMTOP/LITERAL; detach the single
creation filepair as the fallback; run an independent secondary
recursive FIND_COPIES_HARDER diff of the same two trees with output
suppressed; score it with `diffcore_std`; adopt the first
renamed/copied pair whose new side is the follow target, rewriting the
caller's pathspec to that pair's old path and setting `found_follow`;
otherwise keep the fallback with `found_follow` cleared.  Either way the
resulting queue holds exactly one filepair. -/
def try_to_follow_renames (ext : Externals) (fuel : Nat)
    (old new : Option Hash) (base : List Nat) (opt : diff_options)
    (q : List diff_filepair) : Outcome (List diff_filepair × diff_options) :=
  if ¬ guard_pathspec opt.pathspec (PATHSPEC_FROMTOP ||| PATHSPEC_LITERAL) then
    Outcome.die
  else
    let choice := q.headD default_filepair
    let target := pathspec_target opt.pathspec
    let diff_opts := follow_diff_opts opt target
    match ll_diff_tree_sha1 ext fuel old new base diff_opts [] with
    | none => Outcome.noFuel
    | some (_, events, _) =>
      let q2 := ext.diffcore_std (events.map event_to_filepair) diff_opts
      match q2.find? (fun p =>
          (p.status == 82 || p.status == 67) && p.two.path == target) with
      | some p =>
        Outcome.ok ([p],
          { opt with
            found_follow := true
            pathspec := single_literal_pathspec p.one.path })
      | none =>
        Outcome.ok ([choice], { opt with found_follow := false })

/-- `diff_tree_sha1` (tree-diff.c:311-326): run the primary diff with
the path buffer initialized to `base_str`; the events reach the queue
through the diff.c callbacks; when the base prefix is empty, follow is
requested and `diff_might_be_rename` holds on the queue, run
`try_to_follow_renames` on it, else return the primary queue unchanged
together with the primary status. -/
def diff_tree_sha1 (ext : Externals) (fuel : Nat) (old new : Option Hash)
    (base_str : List Nat) (opt : diff_options) :
    Outcome (Int × List diff_filepair × diff_options) :=
  match ll_diff_tree_sha1 ext fuel old new base_str opt [] with
  | none => Outcome.noFuel
  | some (retval, events, base) =>
    let q := events.map event_to_filepair
    if base_str = [] ∧ opt.follow_renames ∧ diff_might_be_rename q then
      match try_to_follow_renames ext fuel old new base opt q with
      | Outcome.ok (q2, opt2) => Outcome.ok (retval, q2, opt2)
      | Outcome.die => Outcome.die
      | Outcome.noFuel => Outcome.noFuel
    else
      Outcome.ok (retval, q, opt)

/-- `diff_root_tree_sha1` (tree-diff.c:328-331): diff against the empty
tree. -/
def diff_root_tree_sha1 (ext : Externals) (fuel : Nat) (new : Option Hash)
    (base_str : List Nat) (opt : diff_options) :
    Outcome (Int × List diff_filepair × diff_options) :=
  diff_tree_sha1 ext fuel none new base_str opt

/-- Recognizer for an addition event (`'+'` sign), used to state
concrete counterexamples. -/
def is_add_event : Event → Bool
  | Event.addremove sign _ _ _ => sign == 43
  | _ => false

/-- Fixture: the file entry `a` (mode 0o100644) with content sha 5. -/
def entA : name_entry := ⟨[97], 33188, 5⟩

/-- Fixture: the file entry `a` with content sha 6. -/
def entB : name_entry := ⟨[97], 33188, 6⟩

/-- Fixture: the directory entry `a` (mode 0o40000) whose subtree hash 9
decodes to the empty tree. -/
def entDir : name_entry := ⟨[97], 16384, 9⟩

/-- Fixture: a concrete object store — hash 1 is the tree `{a → sha 5}`,
hash 2 is `{a → sha 6}`, hash 3 is `{a/ → tree 9}`, everything else is
empty. -/
def storeW : Hash → List name_entry := fun h =>
  if h = 1 then [entA] else if h = 2 then [entB]
  else if h = 3 then [entDir] else []

/-- Fixture: the empty pathspec (no filter). -/
def psW : pathspec := ⟨0, 0, false, false, []⟩

/-- Fixture: all-default options with no filter. -/
def optW : diff_options :=
  ⟨false, false, false, false, psW, -1, 0, none, 0, false⟩

/-- Fixture: options with aggressive copy detection
(FIND_COPIES_HARDER) switched on. -/
def optFCH : diff_options := { optW with find_copies_harder := true }

/-- Fixture: options with recursion switched on (and directory entries
under recursion suppressed, the default). -/
def optRec : diff_options := { optW with recursive := true }

/-- Fixture: options carrying a single-path filter whose magic is the
wildcard magic `PATHSPEC_GLOB` — the unsupported-magic case for the
follow guard. -/
def optGlob : diff_options :=
  { optW with pathspec := ⟨1, PATHSPEC_GLOB, true, false, [⟨[110], PATHSPEC_GLOB⟩]⟩ }

/-- Fixture: options requesting follow-renames on the single literal
path `n` (byte 110). -/
def optFollow : diff_options :=
  { optW with
    follow_renames := true
    pathspec := ⟨1, 0, false, false, [⟨[110], 0⟩]⟩ }

/-- Fixture: concrete externals — the store above, a matcher that finds
every entry interesting, an identity scorer, and a never-quit
predicate. -/
def extW : Externals :=
  ⟨storeW, fun _ _ _ => interest_result.entry_interesting,
   fun q _ => q, fun _ _ => false⟩

/-- Fixture: externals whose scorer retags the queue as the single
rename `o → n` (status 82 = `'R'`), as the external similarity scorer
would after the secondary follow pass. -/
def extRename : Externals :=
  ⟨storeW, fun _ _ _ => interest_result.entry_interesting,
   fun _ _ => [⟨⟨[111], 33188, 7⟩, ⟨[110], 33188, 7⟩, 82⟩],
   fun _ _ => false⟩

theorem memcmpN_self (l : List Nat) (n : Nat) : memcmpN l l n = 0 := by
  induction n generalizing l with
  | zero => cases l <;> rfl
  | succ m ih =>
    cases l with
    | nil => rfl
    | cons a t => simpa [memcmpN] using ih t

theorem getD_length_eq_zero (l : List Nat) : l.getD l.length 0 = 0 := by
  simp [List.getD]

theorem base_name_compare_self (p : List Nat) (m m' : Nat)
    (hm : S_ISDIR m = S_ISDIR m') : base_name_compare p m p m' = 0 := by
  simp [base_name_compare, memcmpN_self, hm]

theorem tree_entry_pathcmp_self (e : name_entry) (r r' : List name_entry) :
    tree_entry_pathcmp (e :: r) (e :: r') = 0 := by
  simp [tree_entry_pathcmp, base_name_compare_self]

theorem pathcmp_file_dir_ne (e1 e2 : name_entry) (r1 r2 : List name_entry)
    (hpath : e1.path = e2.path) (hdir : S_ISDIR e1.mode ≠ S_ISDIR e2.mode) :
    tree_entry_pathcmp (e1 :: r1) (e2 :: r2) ≠ 0 := by
  simp only [tree_entry_pathcmp, base_name_compare]
  rw [hpath]
  cases h1 : S_ISDIR e1.mode <;> cases h2 : S_ISDIR e2.mode <;>
    simp_all [memcmpN_self, getD_length_eq_zero]

theorem base_preserved (fuel : Nat) :
    (∀ (ext : Externals) (old new : Option Hash) (base : List Nat)
       (opt : diff_options) (acc : List Event) (st : Int) (evs : List Event)
       (b : List Nat),
       ll_diff_tree_sha1 ext fuel old new base opt acc = some (st, evs, b) →
       b = base) ∧
    (∀ (ext : Externals) (t1 t2 : List name_entry) (base : List Nat)
       (opt : diff_options) (acc evs : List Event) (b : List Nat),
       diff_loop ext fuel t1 t2 base opt acc = some (evs, b) → b = base) ∧
    (∀ (ext : Externals) (base : List Nat) (opt : diff_options)
       (t1 t2 : Option name_entry) (acc evs : List Event) (b : List Nat),
       show_path ext fuel base opt t1 t2 acc = some (evs, b) → b = base) := by
  induction fuel with
  | zero =>
    refine ⟨?_, ?_, ?_⟩
    · intro ext old new base opt acc st evs b h
      simp [ll_diff_tree_sha1] at h
    · intro ext t1 t2 base opt acc evs b h
      simp [diff_loop] at h
    · intro ext base opt t1 t2 acc evs b h
      simp [show_path] at h
  | succ n ih =>
    obtain ⟨ihll, ihloop, ihshow⟩ := ih
    refine ⟨?_, ?_, ?_⟩
    · intro ext old new base opt acc st evs b h
      simp only [ll_diff_tree_sha1] at h
      split at h
      · exact Option.noConfusion h
      · rename_i acc' base' heq
        simp only [Option.some.injEq, Prod.mk.injEq] at h
        obtain ⟨-, -, h3⟩ := h
        exact h3 ▸ ihloop _ _ _ _ _ _ _ _ heq
    · intro ext t1 t2 base opt acc evs b h
      simp only [diff_loop] at h
      split at h
      · simp only [Option.some.injEq, Prod.mk.injEq] at h
        exact h.2.symm
      · split at h
        · simp only [Option.some.injEq, Prod.mk.injEq] at h
          exact h.2.symm
        · split at h
          · split at h
            · split at h
              · split at h
                · exact Option.noConfusion h
                · rename_i a1 b1 hsp
                  exact (ihloop _ _ _ _ _ _ _ _ h).trans
                    (ihshow _ _ _ _ _ _ _ _ hsp)
              · exact ihloop _ _ _ _ _ _ _ _ h
            · exact Option.noConfusion h
          · split at h
            · split at h
              · split at h
                · exact Option.noConfusion h
                · rename_i a1 b1 hsp
                  exact (ihloop _ _ _ _ _ _ _ _ h).trans
                    (ihshow _ _ _ _ _ _ _ _ hsp)
              · exact Option.noConfusion h
            · split at h
              · split at h
                · exact Option.noConfusion h
                · rename_i a1 b1 hsp
                  exact (ihloop _ _ _ _ _ _ _ _ h).trans
                    (ihshow _ _ _ _ _ _ _ _ hsp)
              · exact Option.noConfusion h
    · intro ext base opt t1 t2 acc evs b h
      simp only [show_path] at h
      split at h
      · split at h
        · exact Option.noConfusion h
        · rename_i st a2 b2 hll
          simp only [Option.some.injEq, Prod.mk.injEq] at h
          obtain ⟨-, h2⟩ := h
          have hb2 := ihll _ _ _ _ _ _ _ _ _ hll
          rw [← h2, hb2, strbuf_setlen, List.append_assoc, List.take_left]
      · simp only [Option.some.injEq, Prod.mk.injEq] at h
        rw [← h.2, strbuf_setlen, List.take_left]

theorem ll_retval_eq_zero (ext : Externals) (fuel : Nat)
    (old new : Option Hash) (base : List Nat) (opt : diff_options)
    (acc : List Event) (st : Int) (evs : List Event) (b : List Nat)
    (h : ll_diff_tree_sha1 ext fuel old new base opt acc = some (st, evs, b)) :
    st = 0 := by
  cases fuel with
  | zero => simp [ll_diff_tree_sha1] at h
  | succ n =>
    simp only [ll_diff_tree_sha1] at h
    split at h
    · exact Option.noConfusion h
    · simp only [Option.some.injEq, Prod.mk.injEq] at h
      exact h.1.symm

theorem diff_loop_self_events (ext : Externals) (opt : diff_options)
    (hfch : opt.find_copies_harder = false) :
    ∀ (fuel : Nat) (t : List name_entry) (base : List Nat)
      (acc evs : List Event) (b : List Nat),
      diff_loop ext fuel t t base opt acc = some (evs, b) → evs = acc := by
  intro fuel
  induction fuel with
  | zero =>
    intro t base acc evs b h
    simp [diff_loop] at h
  | succ n ih =>
    intro t base acc evs b h
    simp only [diff_loop] at h
    split at h
    · simp only [Option.some.injEq, Prod.mk.injEq] at h
      exact h.1.symm
    · cases hs : interesting_cursor ext base opt t with
      | nil =>
        rw [hs] at h
        simp at h
        exact h.1.symm
      | cons e r =>
        rw [hs] at h
        simp [tree_entry_pathcmp_self, hfch] at h
        exact ih r base acc evs b h

theorem ll_self_events (ext : Externals) (fuel : Nat) (hsh : Hash)
    (base : List Nat) (opt : diff_options)
    (hfch : opt.find_copies_harder = false) (acc : List Event) (st : Int)
    (evs : List Event) (b : List Nat)
    (h : ll_diff_tree_sha1 ext fuel (some hsh) (some hsh) base opt acc =
      some (st, evs, b)) :
    evs = acc := by
  cases fuel with
  | zero => simp [ll_diff_tree_sha1] at h
  | succ n =>
    simp only [ll_diff_tree_sha1] at h
    split at h
    · exact Option.noConfusion h
    · rename_i acc' base' heq
      simp only [Option.some.injEq, Prod.mk.injEq] at h
      obtain ⟨-, h2, -⟩ := h
      exact h2 ▸ diff_loop_self_events ext
        { opt with pathspec := { opt.pathspec with recursive := opt.recursive } }
        hfch n _ base acc acc' base' heq

/-- Claim C7: an exhausted cursor compares strictly greater than any
cursor holding a valid entry — when only the old cursor is exhausted
`tree_entry_pathcmp` returns 1 (old > new), and when only the new cursor
is exhausted it returns -1 (old < new) — so the merge-join drains the
remaining side through the ordinary comparison branches. -/
theorem c7_exhausted_cursor_is_plus_infinity (e : name_entry)
    (r : List name_entry) :
    tree_entry_pathcmp [] (e :: r) = 1 ∧ tree_entry_pathcmp (e :: r) [] = -1 :=
  ⟨rfl, rfl⟩

/-- Claim C8: on every exit path of `show_path`, the path buffer it
returns has the same length it had on entry, even though the call
appends the entry name (and a separator when recursing) while it
runs. -/
theorem c8_show_path_preserves_base_length (ext : Externals) (fuel : Nat)
    (base : List Nat) (opt : diff_options) (t1 t2 : Option name_entry)
    (acc evs : List Event) (b : List Nat)
    (h : show_path ext fuel base opt t1 t2 acc = some (evs, b)) :
    b.length = base.length := by
  rw [(base_preserved fuel).2.2 ext base opt t1 t2 acc evs b h]

/-- Witness for C8 at a concrete input: a removal under the one-byte
base prefix `a`. -/
theorem c8_witness :
    show_path extW 1 [97] optW (some entA) none [] =
      some ([Event.addremove 45 33188 5 [97, 97]], [97]) ∧
    ([97] : List Nat).length = ([97] : List Nat).length :=
  ⟨by decide,
   c8_show_path_preserves_base_length extW 1 [97] optW (some entA) none []
     [Event.addremove 45 33188 5 [97, 97]] [97] (by decide)⟩

/-- Claim C2 counterexample: the claim quantifies over every
`DiffOptions`, but with FIND_COPIES_HARDER set the engine emits a
change event for every pair of equal entries, so diffing tree 1 against
itself produces a non-empty queue. -/
theorem c2_counterexample :
    diff_tree_sha1 extW 4 (some 1) (some 1) [] optFCH =
      Outcome.ok (0, [⟨⟨[97], 33188, 5⟩, ⟨[97], 33188, 5⟩, 0⟩], optFCH) ∧
    (([⟨⟨[97], 33188, 5⟩, ⟨[97], 33188, 5⟩, 0⟩] : List diff_filepair) ≠ []) := by
  constructor
  · decide
  · decide

/-- Claim C2 (amended): for every tree hash and every `DiffOptions` in
which aggressive copy detection (FIND_COPIES_HARDER) is not set,
diffing the hash against itself emits zero events and produces an empty
diff queue. -/
theorem c2_self_diff_is_empty (ext : Externals) (fuel : Nat) (hsh : Hash)
    (base : List Nat) (opt : diff_options)
    (hfch : opt.find_copies_harder = false) :
    (∀ acc st evs b,
      ll_diff_tree_sha1 ext fuel (some hsh) (some hsh) base opt acc =
        some (st, evs, b) → evs = acc) ∧
    (∀ st q opt2,
      diff_tree_sha1 ext fuel (some hsh) (some hsh) base opt =
        Outcome.ok (st, q, opt2) → q = []) := by
  constructor
  · intro acc st evs b hll
    exact ll_self_events ext fuel hsh base opt hfch acc st evs b hll
  · intro st q opt2 hd
    simp only [diff_tree_sha1] at hd
    split at hd
    · exact Outcome.noConfusion hd
    · rename_i retval events base' hll
      have hev : events = [] :=
        ll_self_events ext fuel hsh base opt hfch [] retval events base' hll
      subst hev
      simp only [List.map_nil] at hd
      rw [if_neg (by simp [diff_might_be_rename])] at hd
      cases hd
      rfl

/-- Witness for C2 at a concrete input: tree 1 diffed against itself
with default options. -/
theorem c2_witness :
    optW.find_copies_harder = false ∧
    ll_diff_tree_sha1 extW 3 (some 1) (some 1) [] optW [] =
      some (0, [], []) ∧
    ([] : List Event) = [] :=
  ⟨by decide, by decide,
   (c2_self_diff_is_empty extW 3 1 [] optW (by decide)).1 [] 0 [] []
     (by decide)⟩

/-- Claim C9: the engine is deterministic — two runs on equal tree
hashes, base path and options produce the same event sequence. -/
theorem c9_deterministic (ext : Externals) (fuel : Nat)
    (old1 new1 old2 new2 : Option Hash) (base1 base2 : List Nat)
    (opt1 opt2 : diff_options) (h1 : old1 = old2) (h2 : new1 = new2)
    (h3 : base1 = base2) (h4 : opt1 = opt2) :
    ll_diff_tree_sha1 ext fuel old1 new1 base1 opt1 [] =
      ll_diff_tree_sha1 ext fuel old2 new2 base2 opt2 [] := by
  subst h1
  subst h2
  subst h3
  subst h4
  rfl

/-- Witness for C9 at a concrete input. -/
theorem c9_witness :
    ll_diff_tree_sha1 extW 5 (some 1) (some 2) [] optW [] =
      ll_diff_tree_sha1 extW 5 (some 1) (some 2) [] optW [] :=
  c9_deterministic extW 5 (some 1) (some 2) (some 1) (some 2) [] [] optW optW
    rfl rfl rfl rfl

/-- Claim C10: the core always returns status 0 — `ll_diff_tree_sha1`
on its only return path, and `diff_tree_sha1` which passes that status
through, for every pair of hashes and every options value. -/
theorem c10_status_always_zero (ext : Externals) (fuel : Nat)
    (old new : Option Hash) (base : List Nat) (opt : diff_options)
    (acc : List Event) :
    (∀ st evs b,
      ll_diff_tree_sha1 ext fuel old new base opt acc = some (st, evs, b) →
      st = 0) ∧
    (∀ st q opt2,
      diff_tree_sha1 ext fuel old new base opt = Outcome.ok (st, q, opt2) →
      st = 0) := by
  constructor
  · intro st evs b h
    exact ll_retval_eq_zero ext fuel old new base opt acc st evs b h
  · intro st q opt2 h
    simp only [diff_tree_sha1] at h
    split at h
    · exact Outcome.noConfusion h
    · rename_i retval events base' hll
      have hr : retval = 0 :=
        ll_retval_eq_zero ext fuel old new base opt [] retval events base' hll
      split at h
      · split at h
        · rename_i q2 opt2' heq2
          cases h
          exact hr
        · exact Outcome.noConfusion h
        · exact Outcome.noConfusion h
      · cases h
        exact hr

/-- Claim C1: after the primary diff, the rename-follow pass runs if and
only if the base path prefix is empty, follow-renames is set, and
`diff_might_be_rename` holds of the resulting queue (exactly one
filepair with an invalid old side); under any other condition the
primary queue is returned unchanged with the caller's options. -/
theorem c1_follow_trigger (ext : Externals) (fuel : Nat)
    (old new : Option Hash) (base_str : List Nat) (opt : diff_options)
    (st : Int) (events : List Event) (b : List Nat)
    (hll : ll_diff_tree_sha1 ext fuel old new base_str opt [] =
      some (st, events, b)) :
    (¬ (base_str = [] ∧ opt.follow_renames ∧
        diff_might_be_rename (events.map event_to_filepair)) →
      diff_tree_sha1 ext fuel old new base_str opt =
        Outcome.ok (st, events.map event_to_filepair, opt)) ∧
    ((base_str = [] ∧ opt.follow_renames ∧
        diff_might_be_rename (events.map event_to_filepair)) →
      diff_tree_sha1 ext fuel old new base_str opt =
        match try_to_follow_renames ext fuel old new b opt
            (events.map event_to_filepair) with
        | Outcome.ok (q2, opt2) => Outcome.ok (st, q2, opt2)
        | Outcome.die => Outcome.die
        | Outcome.noFuel => Outcome.noFuel) := by
  constructor
  · intro hneg
    simp only [diff_tree_sha1, hll]
    rw [if_neg hneg]
  · intro hpos
    simp only [diff_tree_sha1, hll]
    rw [if_pos hpos]

/-- Claim C3: entering the rename-follow pass with a path filter whose
magic bits go beyond FROMTOP and LITERAL (wildcard or other matching
magic) aborts with a contract-violation failure (`die`), never
proceeding. -/
theorem c3_follow_guard_dies (ext : Externals) (fuel : Nat)
    (old new : Option Hash) (base : List Nat) (opt : diff_options)
    (q : List diff_filepair)
    (hmagic : guard_pathspec opt.pathspec
      (PATHSPEC_FROMTOP ||| PATHSPEC_LITERAL) = false) :
    try_to_follow_renames ext fuel old new base opt q = Outcome.die := by
  simp [try_to_follow_renames, hmagic]

/-- Claim C4: when the guard passes and the secondary pass terminates,
`try_to_follow_renames` leaves exactly one filepair: the first scored
pair tagged renamed (82) or copied (67) whose new side equals the
follow target — adopting it, rewriting the caller's pathspec to its old
path and setting `found_follow` — or else the original single filepair
with `found_follow` cleared. -/
theorem c4_follow_result (ext : Externals) (fuel : Nat)
    (old new : Option Hash) (base : List Nat) (opt : diff_options)
    (q : List diff_filepair) (st : Int) (evs : List Event) (b2 : List Nat)
    (hguard : guard_pathspec opt.pathspec
      (PATHSPEC_FROMTOP ||| PATHSPEC_LITERAL) = true)
    (hll : ll_diff_tree_sha1 ext fuel old new base
      (follow_diff_opts opt (pathspec_target opt.pathspec)) [] =
      some (st, evs, b2)) :
    (try_to_follow_renames ext fuel old new base opt q =
      match (ext.diffcore_std (evs.map event_to_filepair)
          (follow_diff_opts opt (pathspec_target opt.pathspec))).find?
          (fun p => (p.status == 82 || p.status == 67) &&
            p.two.path == pathspec_target opt.pathspec) with
      | some p =>
        Outcome.ok ([p],
          { opt with
            found_follow := true
            pathspec := single_literal_pathspec p.one.path })
      | none =>
        Outcome.ok ([q.headD default_filepair],
          { opt with found_follow := false })) ∧
    (∀ qr optr,
      try_to_follow_renames ext fuel old new base opt q =
        Outcome.ok (qr, optr) → qr.length = 1) := by
  have hmain : try_to_follow_renames ext fuel old new base opt q =
      match (ext.diffcore_std (evs.map event_to_filepair)
          (follow_diff_opts opt (pathspec_target opt.pathspec))).find?
          (fun p => (p.status == 82 || p.status == 67) &&
            p.two.path == pathspec_target opt.pathspec) with
      | some p =>
        Outcome.ok ([p],
          { opt with
            found_follow := true
            pathspec := single_literal_pathspec p.one.path })
      | none =>
        Outcome.ok ([q.headD default_filepair],
          { opt with found_follow := false }) := by
    simp only [try_to_follow_renames]
    rw [if_neg (by simp [hguard])]
    rw [hll]
  refine ⟨hmain, ?_⟩
  intro qr optr hres
  rw [hmain] at hres
  revert hres
  cases (ext.diffcore_std (evs.map event_to_filepair)
      (follow_diff_opts opt (pathspec_target opt.pathspec))).find?
      (fun p => (p.status == 82 || p.status == 67) &&
        p.two.path == pathspec_target opt.pathspec) with
  | some p =>
    intro hres
    cases hres
    rfl
  | none =>
    intro hres
    cases hres
    rfl

/-- Claim C5: in a loop iteration where the pruned cursors hold entries
that compare equal, the emitter (`show_path`) is invoked with both
entries if and only if FIND_COPIES_HARDER is set, or the content hashes
differ, or the modes differ; in either case both cursors advance
exactly once (the continuation runs on both tails). -/
theorem c5_equal_entries_step (ext : Externals) (fuel : Nat)
    (t1 t2 : List name_entry) (e1 e2 : name_entry) (r1 r2 : List name_entry)
    (base : List Nat) (opt : diff_options) (acc : List Event)
    (hq : ext.can_quit_early opt acc = false)
    (h1 : interesting_cursor ext base opt t1 = e1 :: r1)
    (h2 : interesting_cursor ext base opt t2 = e2 :: r2)
    (hcmp : tree_entry_pathcmp (e1 :: r1) (e2 :: r2) = 0) :
    diff_loop ext (fuel + 1) t1 t2 base opt acc =
      if opt.find_copies_harder ∨ e1.sha1 ≠ e2.sha1 ∨ e1.mode ≠ e2.mode then
        match show_path ext fuel base opt (some e1) (some e2) acc with
        | none => none
        | some (a, b) => diff_loop ext fuel r1 r2 b opt a
      else
        diff_loop ext fuel r1 r2 base opt acc := by
  simp only [diff_loop]
  rw [if_neg (by simp [hq])]
  rw [h1, h2, hcmp]
  rw [if_neg (by simp)]
  rw [if_pos rfl]

/-- Claim C6 (amended): a file and a directory under the same name never
compare equal, so the equal/modify branch is never taken for them; in a
non-recursive diff of the two trees holding just those entries the
engine emits an independent remove event and add event for that name
(ordered by the comparator's sign) and no change (modify) event. -/
theorem c6_file_dir_add_remove :
    (∀ (e1 e2 : name_entry) (r1 r2 : List name_entry),
      e1.path = e2.path → S_ISDIR e1.mode ≠ S_ISDIR e2.mode →
      tree_entry_pathcmp (e1 :: r1) (e2 :: r2) ≠ 0) ∧
    (∀ (ext : Externals) (fuel : Nat) (e1 e2 : name_entry) (base : List Nat)
       (opt : diff_options) (acc : List Event),
      opt.recursive = false → opt.pathspec.nr = 0 →
      (∀ a, ext.can_quit_early opt a = false) →
      e1.path = e2.path → S_ISDIR e1.mode ≠ S_ISDIR e2.mode →
      e2.mode ≠ 0 →
      diff_loop ext (fuel + 3) [e1] [e2] base opt acc =
        some (acc ++
          (if tree_entry_pathcmp [e1] [e2] < 0 then
            [Event.addremove 45 e1.mode e1.sha1 (base ++ e1.path),
             Event.addremove 43 e2.mode e2.sha1 (base ++ e2.path)]
          else
            [Event.addremove 43 e2.mode e2.sha1 (base ++ e2.path),
             Event.addremove 45 e1.mode e1.sha1 (base ++ e1.path)]),
          base)) := by
  constructor
  · exact pathcmp_file_dir_ne
  · intro ext fuel e1 e2 base opt acc hrec hnr hq hpath hdir hm2
    have hcmp := pathcmp_file_dir_ne e1 e2 [] [] hpath hdir
    rcases lt_trichotomy (tree_entry_pathcmp [e1] [e2]) 0 with hlt | heq0 | hgt
    · rw [if_pos hlt]
      have hc2 : tree_entry_pathcmp [] [e2] = 1 := rfl
      simp [diff_loop, show_path, emit_diff, strbuf_setlen,
        interesting_cursor, hq, hrec, hnr, hcmp, hlt, hc2, hm2,
        List.take_left]
    · exact absurd heq0 hcmp
    · have hnlt : ¬ tree_entry_pathcmp [e1] [e2] < 0 := by omega
      rw [if_neg hnlt]
      have hc2 : tree_entry_pathcmp [e1] [] = -1 := rfl
      simp [diff_loop, show_path, emit_diff, strbuf_setlen,
        interesting_cursor, hq, hrec, hnr, hcmp, hnlt, hc2, hm2,
        List.take_left]

/-- Witness for C1 at a concrete input: follow-renames is off, so the
primary queue is returned unchanged. -/
theorem c1_witness :
    ll_diff_tree_sha1 extW 4 (some 1) (some 2) [] optW [] =
      some (0, [Event.change 33188 33188 5 6 [97]], []) ∧
    diff_tree_sha1 extW 4 (some 1) (some 2) [] optW =
      Outcome.ok
        (0, [Event.change 33188 33188 5 6 [97]].map event_to_filepair,
         optW) :=
  ⟨by decide,
   (c1_follow_trigger extW 4 (some 1) (some 2) [] optW 0
      [Event.change 33188 33188 5 6 [97]] [] (by decide)).1 (by decide)⟩

/-- Witness for C3 at a concrete input: a pathspec carrying the GLOB
wildcard magic. -/
theorem c3_witness :
    guard_pathspec optGlob.pathspec (PATHSPEC_FROMTOP ||| PATHSPEC_LITERAL) =
      false ∧
    try_to_follow_renames extW 1 (some 1) (some 2) [] optGlob [] =
      Outcome.die :=
  ⟨by decide,
   c3_follow_guard_dies extW 1 (some 1) (some 2) [] optGlob [] (by decide)⟩

/-- Witness for C4 at a concrete input: the scorer reports the rename
`o → n`, the follow target `n` matches, so the pass adopts the rename
and rewrites the pathspec to `o`. -/
theorem c4_witness :
    guard_pathspec optFollow.pathspec
      (PATHSPEC_FROMTOP ||| PATHSPEC_LITERAL) = true ∧
    ll_diff_tree_sha1 extRename 4 (some 1) (some 2) []
      (follow_diff_opts optFollow (pathspec_target optFollow.pathspec)) [] =
      some (0, [Event.change 33188 33188 5 6 [97]], []) ∧
    try_to_follow_renames extRename 4 (some 1) (some 2) [] optFollow [] =
      Outcome.ok ([⟨⟨[111], 33188, 7⟩, ⟨[110], 33188, 7⟩, 82⟩],
        { optFollow with
          found_follow := true
          pathspec := single_literal_pathspec [111] }) :=
  ⟨by decide, by decide,
   (c4_follow_result extRename 4 (some 1) (some 2) [] optFollow [] 0
      [Event.change 33188 33188 5 6 [97]] [] (by decide) (by decide)).1⟩

/-- Witness for C5 at a concrete input: same name, differing content
hashes. -/
theorem c5_witness :
    extW.can_quit_early optW [] = false ∧
    tree_entry_pathcmp [entA] [entB] = 0 ∧
    diff_loop extW 2 [entA] [entB] [] optW [] =
      (if optW.find_copies_harder ∨ entA.sha1 ≠ entB.sha1 ∨
          entA.mode ≠ entB.mode then
        match show_path extW 1 [] optW (some entA) (some entB) [] with
        | none => none
        | some (a, b) => diff_loop extW 1 [] [] b optW a
      else diff_loop extW 1 [] [] [] optW []) :=
  ⟨by decide, by decide,
   c5_equal_entries_step extW 1 [entA] [entB] entA entB [] [] [] optW []
     (by decide) (by decide) (by decide) (by decide)⟩

/-- Claim C6 counterexample: under RECURSIVE with directory entries
suppressed (the default recursive configuration), replacing file `a` by
directory `a` (whose subtree is empty) emits only the remove event —
there is no add event for that name, so the claim as stated fails. -/
theorem c6_counterexample :
    ll_diff_tree_sha1 extW 6 (some 1) (some 3) [] optRec [] =
      some (0, [Event.addremove 45 33188 5 [97]], []) ∧
    ([Event.addremove 45 33188 5 [97]].any is_add_event) = false := by
  constructor
  · decide
  · decide

/-- Witness for C6 at a concrete input: file `a` against directory `a`
in a non-recursive diff. -/
theorem c6_witness :
    tree_entry_pathcmp [entA] [entDir] ≠ 0 ∧
    diff_loop extW 3 [entA] [entDir] [] optW [] =
      some ([Event.addremove 45 33188 5 [97],
             Event.addremove 43 16384 9 [97]], []) :=
  ⟨c6_file_dir_add_remove.1 entA entDir [] [] rfl (by decide),
   by
    have h := c6_file_dir_add_remove.2 extW 0 entA entDir [] optW []
      rfl rfl (fun _ => rfl) rfl (by decide) (by decide)
    simpa using h⟩

/-- Witness for C10 at a concrete input. -/
theorem c10_witness :
    ll_diff_tree_sha1 extW 4 (some 1) (some 2) [] optW [] =
      some (0, [Event.change 33188 33188 5 6 [97]], []) ∧
    ((0 : Int) = 0) :=
  ⟨by decide,
   (c10_status_always_zero extW 4 (some 1) (some 2) [] optW []).1 0
     [Event.change 33188 33188 5 6 [97]] [] (by decide)⟩

end TreeDiff
